import Mathlib

/-!
Verification of the `service` crate (Windows service / systemd unit
management library) against its natural-language specification.

The Rust sources are shallowly embedded: pure functions become Lean
functions, effectful functions become functions over an explicit oracle of
I/O outcomes or action traces, and machine integers become `Nat` (no value
in the program approaches an overflow boundary).

Primary sources embedded here:
  * `service/src/linux.rs`   — systemd unit rendering, create/delete
  * `service/src/windows.rs` — control handler, dispatcher, admin ops
  * `service/src/android.rs` — stub backend
-/

/-- The configuration for constructing a Service (`ServiceConfig` in
`service/src/linux.rs`).  `PathBuf` fields are embedded as strings (the
rendering only ever calls `.display()` on them). -/
structure ServiceConfig where
  arguments : List String
  description : String
  binary : String
  username : Option String
  config_path : String
deriving Repr, DecidableEq

/-- `Service::build_systemd_file` from `service/src/linux.rs` lines
179–198: a direct transliteration of the sequence of `push_str` calls. -/
def build_systemd_file (config : ServiceConfig) : String :=
  let con := "[Unit]\n"
  let con := con ++ ("Description=" ++ config.description ++ "\n")
  let con := con ++ "[Service]\n"
  let con := match config.username with
    | some user => con ++ ("User=" ++ user ++ "\n")
    | none => con
  let con := con ++ ("WorkingDirectory=" ++ config.config_path ++ "\n")
  let con := con ++
    ("ExecStart=" ++ config.binary ++ " " ++
      String.intercalate " " config.arguments ++ "\n")
  let con := con ++ "\n[Install]\nWantedBy=multi-user.target\n"
  con

/-- The unit-file template exactly as the specification's section 6 draws
it: a blank line separates the `[Unit]` section from `[Service]`, and a
blank line separates `[Service]` from `[Install]`; the `User=` line is
omitted when no username is configured.  Written from the spec's words,
to be compared with `build_systemd_file`. -/
def spec_unit_template (config : ServiceConfig) : String :=
  "[Unit]\n" ++
  "Description=" ++ config.description ++ "\n" ++
  "\n" ++
  "[Service]\n" ++
  (match config.username with
    | some user => "User=" ++ user ++ "\n"
    | none => "") ++
  "WorkingDirectory=" ++ config.config_path ++ "\n" ++
  "ExecStart=" ++ config.binary ++ " " ++
    String.intercalate " " config.arguments ++ "\n" ++
  "\n" ++
  "[Install]\n" ++
  "WantedBy=multi-user.target\n"

/-- The concrete configuration named by the specification's testable
property: description "D", no username, binary "/bin/x", arguments
["a","b"], config path "/etc/x". -/
def c1_config : ServiceConfig :=
  { arguments := ["a", "b"]
    description := "D"
    binary := "/bin/x"
    username := none
    config_path := "/etc/x" }

/-- C1, as stated, is false: the renderer emits no blank line between the
`Description=` line and the `[Service]` header, while the claimed
section-6 template contains one. -/
theorem c1_renderer_differs_from_spec_template :
    build_systemd_file c1_config ≠ spec_unit_template c1_config := by
  decide

/-- C1 (amended): for the configuration {description="D", username=None,
binary="/bin/x", args=["a","b"], config_path="/etc/x"} the Linux unit-file
renderer produces `[Unit]`, `Description=D`, then — with no intervening
blank line — `[Service]` with the `User=` line omitted,
`WorkingDirectory=/etc/x`, `ExecStart=/bin/x a b`, a blank line, then
`[Install]` and `WantedBy=multi-user.target`. -/
theorem c1_rendering :
    build_systemd_file c1_config =
      "[Unit]\nDescription=D\n[Service]\nWorkingDirectory=/etc/x\n" ++
      "ExecStart=/bin/x a b\n\n[Install]\nWantedBy=multi-user.target\n" := by
  decide

/-! ## Control handler (`service/src/windows.rs`)

The Windows control handlers are effectful callbacks; we embed each as the
list of externally visible actions it performs, in program order: status
reports (`SetServiceStatus`), event emissions into the channel, and the
value returned to the OS. -/

/-- Windows session identifier (`Session(u32)` in `service/src/windows.rs`). -/
abbrev Session := Nat

/-- The events that can be sent to the service handler (`ServiceEvent<T>`
in `service/src/lib.rs`). -/
inductive ServiceEvent (T : Type) where
  | Continue
  | Pause
  | Stop
  | SessionConnect (s : Session)
  | SessionDisconnect (s : Session)
  | SessionRemoteConnect (s : Session)
  | SessionRemoteDisconnect (s : Session)
  | SessionLogon (s : Session)
  | SessionLogoff (s : Session)
  | SessionLock (s : Session)
  | SessionUnlock (s : Session)
  | Custom (t : T)
deriving Repr, DecidableEq

/-- `winapi::um::winsvc::SERVICE_CONTROL_STOP`. -/
def SERVICE_CONTROL_STOP : Nat := 1

/-- `winapi::um::winsvc::SERVICE_CONTROL_PAUSE`. -/
def SERVICE_CONTROL_PAUSE : Nat := 2

/-- `winapi::um::winsvc::SERVICE_CONTROL_CONTINUE`. -/
def SERVICE_CONTROL_CONTINUE : Nat := 3

/-- `winapi::um::winsvc::SERVICE_CONTROL_SHUTDOWN`. -/
def SERVICE_CONTROL_SHUTDOWN : Nat := 5

/-- `winapi::um::winsvc::SERVICE_CONTROL_SESSIONCHANGE`. -/
def SERVICE_CONTROL_SESSIONCHANGE : Nat := 14

/-- `winapi::shared::winerror::ERROR_CALL_NOT_IMPLEMENTED`. -/
def ERROR_CALL_NOT_IMPLEMENTED : Nat := 120

/-- `winapi::um::winsvc::SERVICE_STOPPED`. -/
def SERVICE_STOPPED : Nat := 1

/-- `winapi::um::winsvc::SERVICE_START_PENDING`. -/
def SERVICE_START_PENDING : Nat := 2

/-- `winapi::um::winsvc::SERVICE_STOP_PENDING`. -/
def SERVICE_STOP_PENDING : Nat := 3

/-- `winapi::um::winsvc::SERVICE_RUNNING`. -/
def SERVICE_RUNNING : Nat := 4

/-- `winapi::um::winuser::WTS_CONSOLE_CONNECT`. -/
def WTS_CONSOLE_CONNECT : Nat := 1

/-- `winapi::um::winuser::WTS_CONSOLE_DISCONNECT`. -/
def WTS_CONSOLE_DISCONNECT : Nat := 2

/-- `winapi::um::winuser::WTS_REMOTE_CONNECT`. -/
def WTS_REMOTE_CONNECT : Nat := 3

/-- `winapi::um::winuser::WTS_REMOTE_DISCONNECT`. -/
def WTS_REMOTE_DISCONNECT : Nat := 4

/-- `winapi::um::winuser::WTS_SESSION_LOGON`. -/
def WTS_SESSION_LOGON : Nat := 5

/-- `winapi::um::winuser::WTS_SESSION_LOGOFF`. -/
def WTS_SESSION_LOGOFF : Nat := 6

/-- `winapi::um::winuser::WTS_SESSION_LOCK`. -/
def WTS_SESSION_LOCK : Nat := 7

/-- `winapi::um::winuser::WTS_SESSION_UNLOCK`. -/
def WTS_SESSION_UNLOCK : Nat := 8

/-- One externally visible action of a control-handler invocation:
a status report through the shared `SERVICE_HANDLE` (state code and wait
hint as passed to `set_service_status`), an event sent into the channel,
or the DWORD returned to the OS. -/
inductive HandlerAction (T : Type) where
  | report (state : Nat) (waitHint : Nat)
  | emit (e : ServiceEvent T)
  | ret (code : Nat)
deriving Repr, DecidableEq

/-- The `SERVICE_CONTROL_SESSIONCHANGE` arm shared verbatim (up to
`send` vs `blocking_send`) by `service_handler` and
`service_handler_async`: decode `event_type` and the session id from the
`WTSSESSION_NOTIFICATION` and emit the matching variant; unknown
sub-reasons emit nothing and return 0. -/
def session_change_actions (T : Type) (eventType sessionId : Nat) :
    List (HandlerAction T) :=
  if eventType = WTS_CONSOLE_CONNECT then
    [.emit (.SessionConnect sessionId), .ret 0]
  else if eventType = WTS_CONSOLE_DISCONNECT then
    [.emit (.SessionDisconnect sessionId), .ret 0]
  else if eventType = WTS_REMOTE_CONNECT then
    [.emit (.SessionRemoteConnect sessionId), .ret 0]
  else if eventType = WTS_REMOTE_DISCONNECT then
    [.emit (.SessionRemoteDisconnect sessionId), .ret 0]
  else if eventType = WTS_SESSION_LOGON then
    [.emit (.SessionLogon sessionId), .ret 0]
  else if eventType = WTS_SESSION_LOGOFF then
    [.emit (.SessionLogoff sessionId), .ret 0]
  else if eventType = WTS_SESSION_LOCK then
    [.emit (.SessionLock sessionId), .ret 0]
  else if eventType = WTS_SESSION_UNLOCK then
    [.emit (.SessionUnlock sessionId), .ret 0]
  else
    [.ret 0]

/-- `service_handler::<T>` from `service/src/windows.rs` lines 567–638
(the synchronous variant), as its action trace.  Stop/Shutdown report
`SERVICE_STOP_PENDING` with wait hint 10, send `Stop`, and return 0;
Pause and Continue send their event and return 0; session changes are
decoded; every other control returns `ERROR_CALL_NOT_IMPLEMENTED`. -/
def service_handler (T : Type) (control eventType sessionId : Nat) :
    List (HandlerAction T) :=
  if control = SERVICE_CONTROL_STOP ∨ control = SERVICE_CONTROL_SHUTDOWN then
    [.report SERVICE_STOP_PENDING 10, .emit .Stop, .ret 0]
  else if control = SERVICE_CONTROL_PAUSE then
    [.emit .Pause, .ret 0]
  else if control = SERVICE_CONTROL_CONTINUE then
    [.emit .Continue, .ret 0]
  else if control = SERVICE_CONTROL_SESSIONCHANGE then
    session_change_actions T eventType sessionId
  else
    [.ret ERROR_CALL_NOT_IMPLEMENTED]

/-- `service_handler_async::<T>` from `service/src/windows.rs` lines
497–561: identical to `service_handler` on Stop/Shutdown and session
changes, but it has no `SERVICE_CONTROL_PAUSE` or
`SERVICE_CONTROL_CONTINUE` arms, so those controls fall through to the
default arm returning `ERROR_CALL_NOT_IMPLEMENTED`. -/
def service_handler_async (T : Type) (control eventType sessionId : Nat) :
    List (HandlerAction T) :=
  if control = SERVICE_CONTROL_STOP ∨ control = SERVICE_CONTROL_SHUTDOWN then
    [.report SERVICE_STOP_PENDING 10, .emit .Stop, .ret 0]
  else if control = SERVICE_CONTROL_SESSIONCHANGE then
    session_change_actions T eventType sessionId
  else
    [.ret ERROR_CALL_NOT_IMPLEMENTED]

/-! ## Dispatcher (`service/src/windows.rs`)

`run_service` (synchronous hosting) and the entry point generated by
`ServiceAsyncMacro!` (asynchronous hosting) are embedded as the ordered
list of externally visible dispatch actions.  `Option` models the
`unwrap()` on the first OS argument: `none` is a panic before any action
is performed. -/

/-- One externally visible action of a dispatcher entry point.
`runBody o` is the hosting of the user body run to natural completion
(worker thread spawn+join for the synchronous path, `block_on` of the
async function for the asynchronous path); `o` records the argument
vector passed to the body, `none` when the body's signature carries no
argument-vector parameter.  `selectBodyOrStop` and `abortBody` are the
actions the specification attributes to the asynchronous dispatcher
(racing body completion against a `Stop` event, then aborting the loser);
no code path of the source performs them, they exist so that the claim
can be stated. -/
inductive DispatchAction (T : Type) where
  | createChannel
  | registerHandler (name : String)
  | storeHandle
  | report (state : Nat) (waitHint : Nat)
  | runBody (argsPassed : Option (List String))
  | selectBodyOrStop
  | abortBody
deriving Repr, DecidableEq

/-- `run_service::<T>` from `service/src/windows.rs` lines 664–686.
`args.get(0).unwrap()` panics on an empty argument vector (`none`);
otherwise: create the mpsc channel, `RegisterServiceCtrlHandlerExW` under
the first argument as name, store the handle in `SERVICE_HANDLE`, report
`SERVICE_START_PENDING` then `SERVICE_RUNNING` (wait hint 0), spawn the
worker thread running `service_main(Some(rx), Some(tx2))` and join it —
`ServiceFn` has no argument-vector parameter, so the body is called
without `args` — then report `SERVICE_STOPPED`. -/
def run_service (T : Type) (args : List String) :
    Option (List (DispatchAction T)) :=
  match args.head? with
  | none => none
  | some name =>
      some [.createChannel, .registerHandler name, .storeHandle,
        .report SERVICE_START_PENDING 0, .report SERVICE_RUNNING 0,
        .runBody none,
        .report SERVICE_STOPPED 0]

/-- The entry point generated by `ServiceAsyncMacro!` in
`service/src/windows.rs` lines 446–490.  `args.get(0).unwrap()` panics on
an empty vector; otherwise: create the tokio channel,
`RegisterServiceCtrlHandlerExW`, store the handle, report
`SERVICE_START_PENDING` then `SERVICE_RUNNING`, build a multi-thread
runtime and `block_on($function(rx, tx2, args, false))` — the body is
awaited to natural completion with the full argument vector — then
report `SERVICE_STOPPED`. -/
def service_async_entry (T : Type) (args : List String) :
    Option (List (DispatchAction T)) :=
  match args.head? with
  | none => none
  | some name =>
      some [.createChannel, .registerHandler name, .storeHandle,
        .report SERVICE_START_PENDING 0, .report SERVICE_RUNNING 0,
        .runBody (some args),
        .report SERVICE_STOPPED 0]

/-- Is this dispatch action the hosting of the user body? -/
def is_run_body {T : Type} : DispatchAction T → Bool
  | .runBody _ => true
  | _ => false

/-- The status codes a dispatcher action trace reports, in order. -/
def trace_reports {T : Type} (tr : List (DispatchAction T)) : List Nat :=
  tr.filterMap fun a =>
    match a with
    | .report s _ => some s
    | _ => none

/-- The status codes a handler action trace reports, in order. -/
def handler_reports {T : Type} (tr : List (HandlerAction T)) : List Nat :=
  tr.filterMap fun a =>
    match a with
    | .report s _ => some s
    | _ => none

/-- The sequence of status codes the OS observes across one full dispatch
cycle of the synchronous dispatcher: the reports `run_service` issues
before hosting the body, then — the one `Stop` control the OS delivers
while the body runs — the reports of `service_handler`, then the reports
`run_service` issues after joining the worker.  Empty if dispatch
panicked on its arguments. -/
def full_cycle_reports (T : Type) (args : List String) : List Nat :=
  match run_service T args with
  | none => []
  | some tr =>
      trace_reports (tr.takeWhile fun a => !is_run_body a) ++
      handler_reports (service_handler T SERVICE_CONTROL_STOP 0 0) ++
      trace_reports (tr.dropWhile fun a => !is_run_body a)

/-- C2: during one full dispatch cycle the status reports issued to the
OS are exactly `StartPending, Running, StopPending, Stopped` in that
order: no phase skipped, no phase reported twice, and `Stopped` is the
terminal report, issued exactly once. -/
theorem c2_full_cycle_status_order :
    full_cycle_reports Unit ["example-service"] =
      [SERVICE_START_PENDING, SERVICE_RUNNING,
        SERVICE_STOP_PENDING, SERVICE_STOPPED] ∧
    (full_cycle_reports Unit ["example-service"]).count SERVICE_STOPPED = 1 ∧
    (full_cycle_reports Unit ["example-service"]).getLast? =
      some SERVICE_STOPPED ∧
    (full_cycle_reports Unit ["example-service"]).Nodup := by
  decide

/-- C3: on a `Stop` or `Shutdown` control, both handler variants first
report `StopPending` with the non-zero wait hint 10, then emit the `Stop`
event, then acknowledge by returning 0 to the OS. -/
theorem c3_stop_shutdown_handler (T : Type) (control eventType sessionId : Nat)
    (h : control = SERVICE_CONTROL_STOP ∨ control = SERVICE_CONTROL_SHUTDOWN) :
    service_handler T control eventType sessionId =
      [.report SERVICE_STOP_PENDING 10, .emit .Stop, .ret 0] ∧
    service_handler_async T control eventType sessionId =
      [.report SERVICE_STOP_PENDING 10, .emit .Stop, .ret 0] ∧
    (10 : Nat) ≠ 0 := by
  refine ⟨?_, ?_, by decide⟩ <;>
    simp [service_handler, service_handler_async, h]

/-- Witness for `c3_stop_shutdown_handler` at the concrete control code
`SERVICE_CONTROL_STOP`. -/
theorem c3_stop_shutdown_handler_witness :
    service_handler Unit SERVICE_CONTROL_STOP 0 0 =
      [.report SERVICE_STOP_PENDING 10, .emit .Stop, .ret 0] ∧
    service_handler_async Unit SERVICE_CONTROL_STOP 0 0 =
      [.report SERVICE_STOP_PENDING 10, .emit .Stop, .ret 0] ∧
    (10 : Nat) ≠ 0 :=
  c3_stop_shutdown_handler Unit SERVICE_CONTROL_STOP 0 0 (Or.inl rfl)

/-- C4, as stated, is false: the asynchronous handler variant has no arm
for `SERVICE_CONTROL_PAUSE` or `SERVICE_CONTROL_CONTINUE`; both fall to
the default arm, emit no event, and return
`ERROR_CALL_NOT_IMPLEMENTED` instead of acknowledging. -/
theorem c4_async_pause_continue_not_implemented :
    service_handler_async Unit SERVICE_CONTROL_PAUSE 0 0 =
      [.ret ERROR_CALL_NOT_IMPLEMENTED] ∧
    service_handler_async Unit SERVICE_CONTROL_CONTINUE 0 0 =
      [.ret ERROR_CALL_NOT_IMPLEMENTED] ∧
    HandlerAction.emit ServiceEvent.Pause ∉
      service_handler_async Unit SERVICE_CONTROL_PAUSE 0 0 ∧
    HandlerAction.ret 0 ∉
      service_handler_async Unit SERVICE_CONTROL_PAUSE 0 0 := by
  decide

/-- C4 (amended): the synchronous handler emits a `Pause` event and
acknowledges on `Pause` and emits a `Continue` event and acknowledges on
`Continue`; the asynchronous handler instead returns the not-implemented
code for both controls and emits nothing. -/
theorem c4_pause_continue_handler (T : Type) (eventType sessionId : Nat) :
    service_handler T SERVICE_CONTROL_PAUSE eventType sessionId =
      [.emit .Pause, .ret 0] ∧
    service_handler T SERVICE_CONTROL_CONTINUE eventType sessionId =
      [.emit .Continue, .ret 0] ∧
    service_handler_async T SERVICE_CONTROL_PAUSE eventType sessionId =
      [.ret ERROR_CALL_NOT_IMPLEMENTED] ∧
    service_handler_async T SERVICE_CONTROL_CONTINUE eventType sessionId =
      [.ret ERROR_CALL_NOT_IMPLEMENTED] := by
  refine ⟨?_, ?_, ?_, ?_⟩ <;>
    simp [service_handler, service_handler_async, SERVICE_CONTROL_PAUSE,
      SERVICE_CONTROL_CONTINUE, SERVICE_CONTROL_STOP,
      SERVICE_CONTROL_SHUTDOWN, SERVICE_CONTROL_SESSIONCHANGE]

/-- C5, as stated, is false: the macro-generated asynchronous entry point
hosts the body by `block_on` to natural completion — its trace contains
`runBody` with the full argument vector but neither a selection between
body completion and a `Stop` event nor an abort of the body task. -/
theorem c5_async_entry_never_aborts_body :
    (service_async_entry Unit ["example-service"]).isSome ∧
    DispatchAction.runBody (some ["example-service"]) ∈
      (service_async_entry Unit ["example-service"]).getD [] ∧
    DispatchAction.selectBodyOrStop ∉
      (service_async_entry Unit ["example-service"]).getD [] ∧
    DispatchAction.abortBody ∉
      (service_async_entry Unit ["example-service"]).getD [] := by
  decide

/-- C5 (amended): for any non-empty argument vector the asynchronous
entry point produces a trace that awaits the body to natural completion
(a `runBody` action carrying the full argument vector), performs no
body-versus-Stop selection and no abort, and reports `Stopped` as its
final action after the body returns. -/
theorem c5_async_entry_awaits_body (T : Type) (args : List String)
    (h : args ≠ []) :
    ∃ tr, service_async_entry T args = some tr ∧
      DispatchAction.runBody (some args) ∈ tr ∧
      DispatchAction.selectBodyOrStop ∉ tr ∧
      DispatchAction.abortBody ∉ tr ∧
      tr.getLast? = some (.report SERVICE_STOPPED 0) := by
  match args, h with
  | a :: rest, _ =>
    refine ⟨_, rfl, ?_, ?_, ?_, ?_⟩ <;> simp [service_async_entry]

/-- Witness for `c5_async_entry_awaits_body` at the argument vector
`["example-service"]`. -/
theorem c5_async_entry_awaits_body_witness :
    ∃ tr, service_async_entry Unit ["example-service"] = some tr ∧
      DispatchAction.runBody (some ["example-service"]) ∈ tr ∧
      DispatchAction.selectBodyOrStop ∉ tr ∧
      DispatchAction.abortBody ∉ tr ∧
      tr.getLast? = some (.report SERVICE_STOPPED 0) :=
  c5_async_entry_awaits_body Unit ["example-service"] (by decide)

/-- C9, as stated, is false: the synchronous dispatcher never makes the
OS argument vector visible to the hosted body — `ServiceFn` has no
argument-vector parameter and `run_service` calls the body as
`service_main(Some(rx), Some(tx2))`, so its `runBody` action carries no
arguments at all. -/
theorem c9_sync_body_gets_no_args :
    (run_service Unit ["example-service"]).isSome ∧
    DispatchAction.runBody none ∈
      (run_service Unit ["example-service"]).getD [] ∧
    DispatchAction.runBody (some ["example-service"]) ∉
      (run_service Unit ["example-service"]).getD [] := by
  decide

/-- C9 (amended): only the asynchronous hosting model passes the
OS-provided argument vector to the body, and it passes it unmodified;
the synchronous model's body signature has no argument-vector parameter,
so every `runBody` action of `run_service` carries none. -/
theorem c9_args_visibility (T : Type) (args : List String) (h : args ≠ []) :
    ∃ trs tra,
      run_service T args = some trs ∧
      service_async_entry T args = some tra ∧
      DispatchAction.runBody (some args) ∈ tra ∧
      DispatchAction.runBody none ∈ trs ∧
      (∀ o, DispatchAction.runBody o ∈ trs → o = none) := by
  match args, h with
  | a :: rest, _ =>
    refine ⟨_, _, rfl, rfl, ?_, ?_, ?_⟩ <;> simp [run_service, service_async_entry]

/-- Witness for `c9_args_visibility` at the argument vector
`["example-service"]`. -/
theorem c9_args_visibility_witness :
    ∃ trs tra,
      run_service Unit ["example-service"] = some trs ∧
      service_async_entry Unit ["example-service"] = some tra ∧
      DispatchAction.runBody (some ["example-service"]) ∈ tra ∧
      DispatchAction.runBody none ∈ trs ∧
      (∀ o, DispatchAction.runBody o ∈ trs → o = none) :=
  c9_args_visibility Unit ["example-service"] (by decide)

/-- C10: both dispatcher entry paths take the first OS argument with
`args.get(0).unwrap()`: dispatch proceeds (is `some`) exactly when the
argument vector is non-empty, and an empty vector panics (`none`) before
any dispatch action is performed. -/
theorem c10_nonempty_args_precondition (T : Type) (args : List String) :
    ((run_service T args).isSome ↔ args ≠ []) ∧
    ((service_async_entry T args).isSome ↔ args ≠ []) := by
  cases args <;> simp [run_service, service_async_entry]

/-! ## Linux `Service::create` (`service/src/linux.rs` lines 201–210)

`create` renders the unit text, opens the file **at the final
installation path** `/etc/systemd/system/<name>.service` with
`File::create`, writes the whole text with `write_all`, then runs
`systemctl daemon-reload`.  The three fallible effects are embedded as an
oracle of outcomes; the second component of the result is the content at
the final path (`none` = no file). -/

/-- `CreateError` from `service/src/linux.rs` (the `io::Error` payload is
dropped). -/
inductive CreateError where
  | NoSystemCtl
  | SystemCtlFailed
  | SystemCtlReloadFailed
  | FileIoError
deriving Repr, DecidableEq

/-- Outcome oracle for the effects of `Service::create`: `File::create`
fails; `write_all` fails after writing `written` bytes of the content (a
failing `write_all` always leaves a strict prefix, `written <
content.length`); `systemctl daemon-reload` fails (`noCtl` distinguishes
a non-invocable `systemctl` from a non-zero exit status); or everything
succeeds. -/
inductive CreateIo where
  | fileCreateFails
  | writeFails (written : Nat)
  | reloadFails (noCtl : Bool)
  | allOk
deriving Repr, DecidableEq

/-- `Result<(), CreateError>` from the Rust signature of
`Service::create`. -/
inductive CreateResult where
  | ok
  | error (e : CreateError)
deriving Repr, DecidableEq

/-- `Service::create` from `service/src/linux.rs` lines 201–210 over the
effect oracle.  `fs0` is the content at the final path before the call.
`File::create` truncates on success (`some ""` intermediately), so the
post-state after a failed `write_all` is exactly the written prefix;
`reload` failure maps through `From<StartStopError> for CreateError`. -/
def linux_create (config : ServiceConfig) (fs0 : Option String)
    (io' : CreateIo) : CreateResult × Option String :=
  let con := build_systemd_file config
  match io' with
  | .fileCreateFails => (.error .FileIoError, fs0)
  | .writeFails written => (.error .FileIoError, some (con.take written))
  | .reloadFails noCtl =>
      (.error (if noCtl then .NoSystemCtl else .SystemCtlFailed), some con)
  | .allOk => (.ok, some con)

set_option maxRecDepth 8192 in
/-- C6, as stated, is false: when `write_all` fails after 5 bytes while
installing `c1_config` at a previously empty path, `create` returns a
`FileIoError` but leaves the 5-byte partial file `"[Unit"` at the final
installation path — neither the complete file nor no file. -/
theorem c6_partial_file_left_on_write_failure :
    (linux_create c1_config none (.writeFails 5)).1 =
      CreateResult.error CreateError.FileIoError ∧
    (linux_create c1_config none (.writeFails 5)).2 = some "[Unit" ∧
    ¬((linux_create c1_config none (.writeFails 5)).2 =
        some (build_systemd_file c1_config) ∨
      (linux_create c1_config none (.writeFails 5)).2 = none) := by
  decide

/-- Taking a string's full length returns the string itself. -/
theorem string_take_full (s : String) : s.take s.length = s := by
  cases s with
  | mk data => simp [String.take_eq, String.length]

/-- C6 (amended): every failing outcome of the Linux `create` is reported
as an error (`Ok` exactly when all three effects succeed), but the
operation does not protect the final installation path: since the unit
text is written directly there (no write-then-rename), the path after the
call either still holds its prior content (only when `File::create`
itself failed) or holds some prefix of the unit text — a strict prefix
when the write failed part-way. -/
theorem c6_create_errors_but_may_leave_prefix (config : ServiceConfig)
    (fs0 : Option String) (io' : CreateIo) :
    ((linux_create config fs0 io').1 = CreateResult.ok ↔ io' = CreateIo.allOk) ∧
    ((linux_create config fs0 io').2 = fs0 ∨
      ∃ k, (linux_create config fs0 io').2 =
        some ((build_systemd_file config).take k)) := by
  cases io' with
  | fileCreateFails => exact ⟨by simp [linux_create], Or.inl rfl⟩
  | writeFails written =>
      exact ⟨by simp [linux_create], Or.inr ⟨written, rfl⟩⟩
  | reloadFails noCtl =>
      refine ⟨by cases noCtl <;> simp [linux_create], Or.inr ⟨(build_systemd_file config).length, ?_⟩⟩
      simp [linux_create, string_take_full]
  | allOk =>
      refine ⟨by simp [linux_create], Or.inr ⟨(build_systemd_file config).length, ?_⟩⟩
      simp [linux_create, string_take_full]

/-! ## Windows administrative operations (`service/src/windows.rs`)

`Service::exists` and `Service::stop` call `OpenSCManagerW` /
`OpenServiceW` through `ServiceController`; the OS outcomes are an
oracle, and a Rust `panic!`/`unwrap` is a distinguished outcome of the
embedding. -/

/-- Outcome of a Rust call that may panic. -/
inductive ExecOutcome (A : Type) where
  | ok (a : A)
  | panicked
deriving Repr, DecidableEq

/-- `Result<(), DWORD>` as returned by the Windows administrative
operations. -/
inductive WinResult where
  | ok
  | error (code : Nat)
deriving Repr, DecidableEq

/-- OS oracle for one administrative call: `scmError = some e` models
`OpenSCManagerW` returning null with `GetLastError() = e` (service
manager unreachable); `openServiceError = some e` models `OpenServiceW`
returning null (service absent or inaccessible). -/
structure ScmOracle where
  scmError : Option Nat
  openServiceError : Option Nat
deriving Repr, DecidableEq

/-- `Service::exists` from `service/src/windows.rs` lines 244–250:
`ServiceController::open(...).unwrap_or_else(|e| panic!(...))` panics
when the manager cannot be opened; otherwise the result is
`open_service(&self.name, ...).is_ok()`. -/
def win_exists (o : ScmOracle) : ExecOutcome Bool :=
  match o.scmError with
  | some _ => .panicked
  | none => .ok o.openServiceError.isNone

/-- `Service::stop` from `service/src/windows.rs` lines 253–287:
`ServiceController::open(...)?` surfaces a manager-unreachable code as a
typed `Err`, but `open_service(...).unwrap()` panics when the service
cannot be opened; after the control request and its poll loop the
function returns `Ok(())`. -/
def win_stop (o : ScmOracle) : ExecOutcome WinResult :=
  match o.scmError with
  | some e => .ok (.error e)
  | none =>
      match o.openServiceError with
      | some _ => .panicked
      | none => .ok .ok

/-- `Service::delete` from `service/src/windows.rs` lines 328–337: both
`ServiceController::open(...)?` and `open_service(...)?` surface their
codes as typed errors, and a failing `DeleteService` surfaces
`GetLastError()`; no path panics. -/
def win_delete (o : ScmOracle) (deleteError : Option Nat) :
    ExecOutcome WinResult :=
  match o.scmError with
  | some e => .ok (.error e)
  | none =>
      match o.openServiceError with
      | some e => .ok (.error e)
      | none =>
          match deleteError with
          | some e => .ok (.error e)
          | none => .ok .ok

/-- C7, as stated, is false: when the service manager is unreachable
(`OpenSCManagerW` fails, here with code 5, access denied),
`Service::exists` on Windows panics instead of surfacing a typed
error. -/
theorem c7_exists_panics_when_manager_unreachable :
    win_exists ⟨some 5, none⟩ = ExecOutcome.panicked := by
  decide

/-- C7 (amended): Windows `delete` surfaces every failure as a typed
error and never panics, and `stop` surfaces a manager-unreachable code
as a typed error; but `exists` panics precisely when the manager cannot
be opened, and `stop` panics when the manager opens and the per-service
open then fails. -/
theorem c7_admin_error_surfacing (o : ScmOracle) (deleteError : Option Nat) :
    (win_exists o = ExecOutcome.panicked ↔ o.scmError ≠ none) ∧
    (∀ e, o.scmError = some e → win_stop o = .ok (.error e)) ∧
    (o.scmError = none → o.openServiceError ≠ none →
      win_stop o = ExecOutcome.panicked) ∧
    win_delete o deleteError ≠ ExecOutcome.panicked := by
  obtain ⟨se, oe⟩ := o
  cases se <;> cases oe <;> cases deleteError <;>
    simp [win_exists, win_stop, win_delete]

/-- Witness for `c7_admin_error_surfacing` at concrete oracles: manager
unreachable with code 7 for `stop`, service-open failure with code 3,
and a `delete` with a failing `DeleteService`. -/
theorem c7_admin_error_surfacing_witness :
    win_stop ⟨some 7, none⟩ = .ok (.error 7) ∧
    win_stop ⟨none, some 3⟩ = ExecOutcome.panicked ∧
    win_delete ⟨none, some 3⟩ (some 2) ≠ ExecOutcome.panicked :=
  ⟨(c7_admin_error_surfacing ⟨some 7, none⟩ none).2.1 7 rfl,
   (c7_admin_error_surfacing ⟨none, some 3⟩ none).2.2.1 rfl (by decide),
   (c7_admin_error_surfacing ⟨none, some 3⟩ (some 2)).2.2.2⟩

/-! ## `Service::delete` on the Linux and Android backends -/

/-- The success/failure of a delete call (`Result<(), std::io::Error>`,
payload dropped). -/
inductive DeleteResult where
  | ok
  | error
deriving Repr, DecidableEq

/-- `Service::delete` from `service/src/linux.rs` lines 151–155:
`std::fs::remove_file` on `/etc/systemd/system/<name>.service`.  The path
content is the `Option String` (`none` = no unit file installed);
`remove_file` on a missing file fails with a NotFound `io::Error`, on an
existing file it succeeds and clears the path. -/
def linux_delete (fs : Option String) : DeleteResult × Option String :=
  match fs with
  | none => (.error, none)
  | some _ => (.ok, none)

/-- `Service::exists` from `service/src/android.rs` lines 126–128: the
stub always answers `false`. -/
def android_exists : Bool := false

/-- `Service::delete` from `service/src/android.rs` lines 152–154: the
stub returns `Ok(())` unconditionally. -/
def android_delete : DeleteResult := .ok

/-- C8, as stated, is false: on the Android backend no service is ever
installed (`exists` is constantly false), yet `delete` returns `Ok` — a
silent success rather than a reported error. -/
theorem c8_android_delete_silently_succeeds :
    android_exists = false ∧ android_delete = DeleteResult.ok := by
  decide

/-- C8 (amended): on the Linux backend, deleting when no unit file is
installed is a reported error (and delete succeeds exactly when the unit
file exists); the Android stub backend instead returns `Ok`
unconditionally. -/
theorem c8_delete_missing_service (fs : Option String) :
    (fs = none → linux_delete fs = (DeleteResult.error, none)) ∧
    ((linux_delete fs).1 = DeleteResult.ok ↔ fs ≠ none) ∧
    android_delete = DeleteResult.ok := by
  cases fs <;> simp [linux_delete, android_delete]

/-- Witness for `c8_delete_missing_service` at the not-installed state. -/
theorem c8_delete_missing_service_witness :
    linux_delete none = (DeleteResult.error, none) ∧
    android_delete = DeleteResult.ok :=
  ⟨(c8_delete_missing_service none).1 rfl,
   (c8_delete_missing_service none).2.2⟩
